import Mathlib

set_option maxHeartbeats 1000000
set_option maxRecDepth 4000

/-!
Formal model of the `goedgekeurde-vergunningen` dashboard pipeline,
a shallow embedding of `scripts/generate_html.py` (with the column
configuration of `src/config.py`).  The core transform
(`load_and_prepare_data`, `create_trend_chart`, `generate_analyses`,
`create_data_table`) is modelled over lists of records; pandas `Float64`
results of an integer division are modelled by the extended value type
`FVal` (finite rational, plus-infinity, minus-infinity, NaN), pandas
nullable integers by `Option ℤ`, and missing labels (`NaN` after
`Series.map` with a dict) by `Option String`.
-/

/-- Result type of a pandas `Float64` computation: a finite rational,
`+inf` (division of a positive value by zero), `-inf` (negative by zero)
or `NaN` (0/0, or a missing operand — pandas `NA` behaves like `NaN`
under `round` and `fillna`, so both are collapsed into `nan`). -/
inductive FVal where
  | fin : ℚ → FVal
  | inf : FVal
  | negInf : FVal
  | nan : FVal
deriving DecidableEq

/-- Round-half-to-even to an integer, the rounding used by numpy/pandas
`round` and by Python's built-in `round`. -/
def roundHalfEven (q : ℚ) : ℤ :=
  if q - ⌊q⌋ < 1/2 then ⌊q⌋
  else if q - ⌊q⌋ > 1/2 then ⌊q⌋ + 1
  else if Even ⌊q⌋ then ⌊q⌋ else ⌊q⌋ + 1

/-- Model of `.round(1)` / `round(x, 1)`: round to one decimal place. -/
def round1 (q : ℚ) : ℚ := (roundHalfEven (q * 10) : ℚ) / 10

/-- Division of two nullable integer columns, with pandas/numpy
semantics: a missing operand gives `NaN`, division of a nonzero value by
zero gives a signed infinity, `0/0` gives `NaN`
(`generate_html.py` line 68: `nieuwbouw_appartementen / nieuwbouw_woningen_totaal`). -/
def optDiv (app tot : Option ℤ) : FVal :=
  match app, tot with
  | some a, some t =>
      if t = 0 then
        (if 0 < a then FVal.inf else if a < 0 then FVal.negInf else FVal.nan)
      else FVal.fin ((a : ℚ) / (t : ℚ))
  | _, _ => FVal.nan

/-- Multiplication of a `Float64` result by 100 (line 69). -/
def fmul100 : FVal → FVal
  | FVal.fin q => FVal.fin (q * 100)
  | v => v

/-- pandas `.round(1)` on a `Float64` value (line 70): rounds finite
values, leaves infinities and `NaN` unchanged. -/
def fround1 : FVal → FVal
  | FVal.fin q => FVal.fin (round1 q)
  | v => v

/-- pandas `.fillna(0)` on a `Float64` value (lines 73-74): replaces
`NaN` (and `NA`) by 0, leaves finite values and infinities unchanged. -/
def fillna0 : FVal → FVal
  | FVal.nan => FVal.fin 0
  | v => v

/-- The derived `aandeel_flats` column (`generate_html.py` lines 66-74):
`(nieuwbouw_appartementen / nieuwbouw_woningen_totaal * 100).round(1)`
followed by `fillna(0)`. -/
def aandeelFlats (app tot : Option ℤ) : FVal :=
  fillna0 (fround1 (fmul100 (optDiv app tot)))

/-- Row of `data/building_permits.csv` as read by `load_and_prepare_data`,
restricted to the columns the script actually uses (names from
`src/config.py`).  Measure columns are nullable integers (`Int64`). -/
structure PermitRecord where
  gemeente_naam_nl : String
  geografisch_niveau : ℕ
  jaar : ℕ
  periode : ℕ
  nieuwbouw_woningen_totaal : Option ℤ
  nieuwbouw_appartementen : Option ℤ
  renovatie_gebouwen_wonen : Option ℤ
deriving DecidableEq

/-- The period codes kept by the filter on line 57:
`periode.isin([1, ..., 12])` (period 0, the yearly total, is not in it). -/
def periodSet : List ℕ := [1, 2, 3, 4, 5, 6, 7, 8, 9, 10, 11, 12]

/-- The row filter of lines 55-58: keep rows with
`geografisch_niveau == 2` whose `periode` is in `periodSet`. -/
def filterGewest (df : List PermitRecord) : List PermitRecord :=
  df.filter (fun r => decide (r.geografisch_niveau = 2) && decide (r.periode ∈ periodSet))

/-- The fixed `gewest_mapping` dict of lines 77-81; `Series.map` with a
dict sends keys outside the dict to `NaN`, modelled by `none`. -/
def gewestMapping (s : String) : Option String :=
  if s = "VLAAMS GEWEST" then some "Vlaams Gewest"
  else if s = "WAALS GEWEST" then some "Waals Gewest"
  else if s = "BRUSSELS HOOFDSTEDELIJK GEWEST" then some "Brussels Hoofdstedelijk Gewest"
  else none

/-- pandas `.fillna(0)` on a nullable integer column, read as a rational
(lines 73-74 fill the three metric columns with 0). -/
def fill0 (o : Option ℤ) : ℚ := ((o.getD 0 : ℤ) : ℚ)

/-- Order-faithful encoding of the canonical date built on lines 61-64
(`pd.to_datetime(jaar ++ "-" ++ zfill 2 periode ++ "-01")`): for the
filtered rows `periode ∈ 1..12`, the first-of-month dates are ordered
exactly like `jaar * 12 + (periode - 1)`. -/
def encodeDatum (jaar periode : ℕ) : ℕ := jaar * 12 + (periode - 1)

/-- Row of the prepared frame `df_gewest` after `load_and_prepare_data`:
label mapped through `gewestMapping`, canonical date added, the three
metric columns filled with 0, `aandeel_flats` computed per row. -/
structure PreparedRow where
  gemeente_naam_nl : Option String
  jaar : ℕ
  periode : ℕ
  datum : ℕ
  nieuwbouw_woningen_totaal : ℚ
  renovatie_gebouwen_wonen : ℚ
  aandeel_flats : FVal
deriving DecidableEq

/-- The per-row part of `load_and_prepare_data` (lines 60-82). -/
def toPrepared (r : PermitRecord) : PreparedRow :=
  { gemeente_naam_nl := gewestMapping r.gemeente_naam_nl
    jaar := r.jaar
    periode := r.periode
    datum := encodeDatum r.jaar r.periode
    nieuwbouw_woningen_totaal := fill0 r.nieuwbouw_woningen_totaal
    renovatie_gebouwen_wonen := fill0 r.renovatie_gebouwen_wonen
    aandeel_flats := aandeelFlats r.nieuwbouw_appartementen r.nieuwbouw_woningen_totaal }

/-- The whole `load_and_prepare_data` data transform: filter, then derive
the per-row columns. -/
def prepare (df : List PermitRecord) : List PreparedRow :=
  (filterGewest df).map toPrepared

/-- pandas elementwise `==` between a label column and a group value:
a missing value (`NaN`) compares `False` against everything, including
another missing value (line 96: `data['gemeente_naam_nl'] == gewest`). -/
def pandasEqOpt (a b : Option String) : Bool :=
  match a, b with
  | some x, some y => x == y
  | _, _ => false

/-- The rows selected for one gewest (line 96 / line 290). -/
def groupRows (l : List PreparedRow) (g : Option String) : List PreparedRow :=
  l.filter (fun r => pandasEqOpt r.gemeente_naam_nl g)

/-- Accumulator pass for `uniqueLabels`: keep the first occurrence of
each value, remembering the values already seen. -/
def uniqueAux : List (Option String) → List (Option String) → List (Option String)
  | [], _ => []
  | x :: xs, seen => if x ∈ seen then uniqueAux xs seen else x :: uniqueAux xs (x :: seen)

/-- pandas `Series.unique`: the distinct values in first-occurrence
order, with `NaN` kept (once) as a value (line 86). -/
def uniqueLabels (l : List (Option String)) : List (Option String) :=
  uniqueAux l []

/-- Model of `self.gewesten = df_gewest['gemeente_naam_nl'].unique()` (line 86). -/
def gewesten (df : List PermitRecord) : List (Option String) :=
  uniqueLabels ((prepare df).map PreparedRow.gemeente_naam_nl)

/-- The comparison used by `sort_values('datum')`. -/
def relDatum (a b : PreparedRow) : Prop := a.datum ≤ b.datum

instance : DecidableRel relDatum := fun a b => Nat.decLe a.datum b.datum

instance : IsTotal PreparedRow relDatum := ⟨fun a b => Nat.le_total a.datum b.datum⟩

instance : IsTrans PreparedRow relDatum := ⟨fun _ _ _ h h2 => Nat.le_trans h h2⟩

/-- `sort_values('datum')` on a group (line 96 / line 292). -/
def sortByDatum (l : List PreparedRow) : List PreparedRow :=
  List.insertionSort relDatum l

/-- The sorted rows of one gewest, the sequence both the chart pass and
the table pass start from. -/
def chartSorted (df : List PermitRecord) (g : Option String) : List PreparedRow :=
  sortByDatum (groupRows (prepare df) g)

/-- Line 103, `pd.to_numeric(..., errors='coerce').fillna(0)`, applied to
a metric column that `load_and_prepare_data` already made numeric and
already filled: the identity on its rational value. -/
def toNumericFillna (q : ℚ) : ℚ := q

/-- pandas `rolling(window=w, min_periods=1).mean()` (line 104): the
value at position `i` is the mean of the window of trailing raw values
ending at `i` (at most `w` of them, fewer near the start). -/
def rollingMean (w : ℕ) (xs : List ℚ) : List ℚ :=
  (List.range xs.length).map (fun i =>
    ((xs.take (i + 1)).drop (i + 1 - w)).sum
      / ((((xs.take (i + 1)).drop (i + 1 - w)).length : ℕ) : ℚ))

/-- The raw (monthly) y-values of one gewest's chart trace (lines 102-111). -/
def chartRawVals (df : List PermitRecord) (metric : PreparedRow → ℚ)
    (g : Option String) : List ℚ :=
  (chartSorted df g).map (fun r => toNumericFillna (metric r))

/-- The trend y-values of one gewest's chart trace (lines 104, 112). -/
def chartTrendVals (df : List PermitRecord) (metric : PreparedRow → ℚ)
    (g : Option String) : List ℚ :=
  rollingMean 4 (chartRawVals df metric g)

/-- One row of the per-metric data table / CSV built in
`generate_analyses` (lines 295-303): date, gewest, year, period, the raw
monthly value and the trend value rounded to one decimal. -/
structure TableRow where
  datum : ℕ
  gewest : Option String
  jaar : ℕ
  periode : ℕ
  maand : ℚ
  trend : ℚ
deriving DecidableEq

/-- The table pass of `generate_analyses` (lines 289-303) for one gewest:
same filter and sort as the chart pass, rolling mean recomputed, trend
rounded with `round(..., 1)` when written to the table. -/
def tableRowsFor (df : List PermitRecord) (metric : PreparedRow → ℚ)
    (g : Option String) : List TableRow :=
  let rows := groupRows (prepare df) g
  if rows.isEmpty then []
  else
    let sorted := sortByDatum rows
    let trend := rollingMean 4 (sorted.map metric)
    (sorted.zip trend).map (fun p =>
      { datum := p.1.datum
        gewest := p.1.gemeente_naam_nl
        jaar := p.1.jaar
        periode := p.1.periode
        maand := metric p.1
        trend := round1 p.2 })

/-- One plotly trace added by `create_trend_chart`: the gewest it belongs
to, its kind (`"maand"` or `"trend"`) and its y-values. -/
structure Trace where
  gewest : Option String
  soort : String
  ys : List ℚ
deriving DecidableEq

/-- The trace list built by the loop of lines 95-158: for each gewest in
`self.gewesten`, skip it when its row selection is empty (line 98-99),
otherwise add its monthly trace and its trend trace. -/
def chartTraces (df : List PermitRecord) (metric : PreparedRow → ℚ) : List Trace :=
  ((gewesten df).map (fun g =>
    if (groupRows (prepare df) g).isEmpty then []
    else
      [{ gewest := g, soort := "maand", ys := chartRawVals df metric g },
       { gewest := g, soort := "trend", ys := chartTrendVals df metric g }])).flatten

/-- The `month_names` dict of lines 117-121, as a partial lookup
(`month_names[row['periode']]` raises `KeyError` outside its keys). -/
def monthNames : ℕ → Option String
  | 1 => some "januari"
  | 2 => some "februari"
  | 3 => some "maart"
  | 4 => some "april"
  | 5 => some "mei"
  | 6 => some "juni"
  | 7 => some "juli"
  | 8 => some "augustus"
  | 9 => some "september"
  | 10 => some "oktober"
  | 11 => some "november"
  | 12 => some "december"
  | _ => none

/-- Python `str.zfill`: left-pad with `'0'` to the given width. -/
def zfill (w : ℕ) (s : String) : String :=
  if w ≤ s.length then s else String.mk (List.replicate (w - s.length) '0') ++ s

/-- The date string built on lines 61-64:
`jaar.astype(str) + '-' + periode.astype(str).str.zfill(2) + '-01'`. -/
def datumStr (jaar periode : ℕ) : String :=
  toString jaar ++ "-" ++ zfill 2 (toString periode) ++ "-01"

/-- Modelled from the spec: the quarterly near-duplicate script variant
mentioned in the design notes is not among the sources; per the spec's
policy, under the quarterly scheme the canonical date is the first month
of the quarter, `year-(period*3-2)-01`. -/
def kwartaalDatum (jaar kwartaal : ℕ) : String :=
  datumStr jaar (3 * kwartaal - 2)

/-- Rows of the prepared frame whose label had no entry in
`gewestMapping` (they carry `NaN` labels after line 82). -/
def droppedCount (df : List PermitRecord) : ℕ :=
  ((prepare df).filter (fun r => r.gemeente_naam_nl.isNone)).length

/-- The console lines printed by `load_and_prepare_data` (lines 49, 88):
a fixed banner and a summary of the total row count and the number of
distinct labels (Python's thousands separator is omitted; it is a
function of the same number). -/
def runOutputLoad (df : List PermitRecord) : List String :=
  ["Loading and preparing data...",
   "Data loaded: " ++ toString df.length ++ " rows, "
     ++ toString (gewesten df).length ++ " gewesten"]

/-- The per-gewest sorted row lists, in `self.gewesten` order: every
later dataset-dependent console line (the per-gewest debug prints of
line 107, for each metric) is computed from this data and the group
label alone. -/
def perGewestData (df : List PermitRecord) : List (Option String × List PreparedRow) :=
  (gewesten df).map (fun g => (g, chartSorted df g))

/-- The file paths written by one run, in program order: per analysis the
chart page and the standalone chart page (lines 201-225), then the CSV
and the table page (lines 229-267); analysis 3 re-saves its chart after
the layout update (lines 387-389); finally `index.html` (line 599).
All writes go directly to the published `docs/` tree. -/
def runWritePaths : List String :=
  ["docs/charts/nieuwbouw_woningen.html",
   "docs/charts/nieuwbouw_woningen_standalone.html",
   "docs/csv/nieuwbouw_woningen_data.csv",
   "docs/tables/nieuwbouw_woningen_data.html",
   "docs/charts/renovatie_gebouwen.html",
   "docs/charts/renovatie_gebouwen_standalone.html",
   "docs/csv/renovatie_gebouwen_data.csv",
   "docs/tables/renovatie_gebouwen_data.html",
   "docs/charts/aandeel_flats.html",
   "docs/charts/aandeel_flats_standalone.html",
   "docs/charts/aandeel_flats.html",
   "docs/csv/aandeel_flats_data.csv",
   "docs/tables/aandeel_flats_data.html",
   "docs/index.html"]

/-- Whether a path points into the published site directory `docs/`. -/
def startsWithDocs (p : String) : Bool :=
  List.isPrefixOf "docs/".data p.data

/-- The writes of a (possibly truncated) write sequence that land in the
published site directory. -/
def publishedWrites (ps : List String) : List String :=
  ps.filter startsWithDocs

/-- Helper to build concrete permit records for witnesses and
counterexamples. -/
def mkRec (naam : String) (niveau jaar periode : ℕ) (tot app ren : Option ℤ) :
    PermitRecord :=
  { gemeente_naam_nl := naam
    geografisch_niveau := niveau
    jaar := jaar
    periode := periode
    nieuwbouw_woningen_totaal := tot
    nieuwbouw_appartementen := app
    renovatie_gebouwen_wonen := ren }

/-- A sample record at gewest level with a valid month period. -/
def sampleRecord : PermitRecord := mkRec "VLAAMS GEWEST" 2 2023 3 (some 40) (some 10) (some 5)

/-- A one-row sample dataset. -/
def sampleDf : List PermitRecord := [sampleRecord]

/-- The total-new-dwellings metric column as a selector. -/
def metricTot : PreparedRow → ℚ := fun r => r.nieuwbouw_woningen_totaal

/-- A dataset with the same gewest-level row twice: a legal input in
which one group has a duplicated (year, period). -/
def cexDup : List PermitRecord :=
  [mkRec "VLAAMS GEWEST" 2 2023 1 none none none,
   mkRec "VLAAMS GEWEST" 2 2023 1 none none none]

/-- Dataset A for the unmapped-geography report: one mapped row, one
unmapped gewest-level row, one filler row at another level. -/
def cexA6 : List PermitRecord :=
  [mkRec "VLAAMS GEWEST" 2 2023 1 none none none,
   mkRec "FOO" 2 2023 1 none none none,
   mkRec "FILLER" 1 2023 1 none none none]

/-- Dataset B for the unmapped-geography report: one mapped row and two
unmapped gewest-level rows; indistinguishable from `cexA6` in every
dataset-derived console line, but with a different dropped-row count. -/
def cexB6 : List PermitRecord :=
  [mkRec "VLAAMS GEWEST" 2 2023 1 none none none,
   mkRec "FOO" 2 2023 1 none none none,
   mkRec "BAR" 2 2023 2 none none none]


theorem rollingMean_length (w : ℕ) (xs : List ℚ) :
    (rollingMean w xs).length = xs.length := by
  simp [rollingMean]

theorem window_length (w i : ℕ) (xs : List ℚ) (h : i < xs.length) :
    ((xs.take (i + 1)).drop (i + 1 - w)).length = min w (i + 1) := by
  simp only [List.length_drop, List.length_take]
  omega

theorem rollingMean_get (w : ℕ) (xs : List ℚ) (i : ℕ)
    (h : i < (rollingMean w xs).length) :
    (rollingMean w xs).get ⟨i, h⟩ =
      ((xs.take (i + 1)).drop (i + 1 - w)).sum / ((min w (i + 1) : ℕ) : ℚ) := by
  have hx : i < xs.length := by simpa [rollingMean_length] using h
  simp only [rollingMean, List.get_eq_getElem, List.getElem_map, List.getElem_range]
  rw [window_length w i xs hx]

theorem rollingMean_head (w : ℕ) (hw : 1 ≤ w) (xs : List ℚ) :
    (rollingMean w xs).head? = xs.head? := by
  cases xs with
  | nil => simp [rollingMean]
  | cons x t =>
      simp [rollingMean, List.range_succ_eq_map, Nat.sub_eq_zero_of_le hw]

theorem roundHalfEven_nonneg (q : ℚ) (h : 0 ≤ q) : 0 ≤ roundHalfEven q := by
  have h0 : (0 : ℤ) ≤ ⌊q⌋ := Int.floor_nonneg.mpr h
  unfold roundHalfEven
  split_ifs <;> omega

theorem roundHalfEven_le (q : ℚ) (n : ℤ) (h : q ≤ (n : ℚ)) : roundHalfEven q ≤ n := by
  have hf : ⌊q⌋ ≤ n := by
    have := Int.floor_mono h
    simpa using this
  unfold roundHalfEven
  split_ifs with h1 h2 h3
  · exact hf
  · rcases lt_or_eq_of_le hf with hlt | heq
    · omega
    · exfalso
      have hq : (⌊q⌋ : ℚ) ≤ q := Int.floor_le q
      rw [heq] at h2
      have : q - (n : ℚ) ≤ 0 := by linarith
      linarith
  · exact hf
  · rcases lt_or_eq_of_le hf with hlt | heq
    · omega
    · exfalso
      have htie : q - (⌊q⌋ : ℚ) = 1/2 := by linarith
      rw [heq] at htie
      have : q = (n : ℚ) + 1/2 := by linarith
      linarith
  
theorem round1_nonneg (q : ℚ) (h : 0 ≤ q) : 0 ≤ round1 q := by
  unfold round1
  have h10 : (0 : ℚ) ≤ q * 10 := by linarith
  have := roundHalfEven_nonneg (q * 10) h10
  have hc : (0 : ℚ) ≤ (roundHalfEven (q * 10) : ℚ) := by exact_mod_cast this
  linarith

theorem round1_le_100 (q : ℚ) (h : q ≤ 100) : round1 q ≤ 100 := by
  unfold round1
  have h10 : q * 10 ≤ ((1000 : ℤ) : ℚ) := by push_cast; linarith
  have := roundHalfEven_le (q * 10) 1000 h10
  have hc : ((roundHalfEven (q * 10) : ℤ) : ℚ) ≤ 1000 := by exact_mod_cast this
  linarith

theorem map_zip_fst {α β γ : Type} (f : α → γ) :
    ∀ (l : List α) (m : List β), l.length ≤ m.length →
      (l.zip m).map (fun p => f p.1) = l.map f := by
  intro l
  induction l with
  | nil => intro m _; simp
  | cons a l ih =>
      intro m hm
      cases m with
      | nil => simp at hm
      | cons b m =>
          simp only [List.zip_cons_cons, List.map_cons, List.cons.injEq]
          exact ⟨trivial, ih m (by simpa using hm)⟩

theorem map_zip_snd {α β γ : Type} (f : β → γ) :
    ∀ (l : List α) (m : List β), m.length ≤ l.length →
      (l.zip m).map (fun p => f p.2) = m.map f := by
  intro l
  induction l with
  | nil =>
      intro m hm
      cases m with
      | nil => simp
      | cons b m => simp at hm
  | cons a l ih =>
      intro m hm
      cases m with
      | nil => simp
      | cons b m =>
          simp only [List.zip_cons_cons, List.map_cons, List.cons.injEq]
          exact ⟨trivial, ih m (by simpa using hm)⟩

theorem pairwise_and_of {α : Type} {R S : α → α → Prop} :
    ∀ {l : List α}, l.Pairwise R → l.Pairwise S → l.Pairwise (fun a b => R a b ∧ S a b) := by
  intro l
  induction l with
  | nil => intro _ _; exact List.Pairwise.nil
  | cons a l ih =>
      intro hR hS
      rcases List.pairwise_cons.mp hR with ⟨hRa, hRl⟩
      rcases List.pairwise_cons.mp hS with ⟨hSa, hSl⟩
      exact List.pairwise_cons.mpr ⟨fun b hb => ⟨hRa b hb, hSa b hb⟩, ih hRl hSl⟩

theorem pairwise_imp_mem {α : Type} {R S : α → α → Prop} :
    ∀ {l : List α}, (∀ a ∈ l, ∀ b ∈ l, R a b → S a b) → l.Pairwise R → l.Pairwise S := by
  intro l
  induction l with
  | nil => intro _ _; exact List.Pairwise.nil
  | cons a l ih =>
      intro himp hR
      rcases List.pairwise_cons.mp hR with ⟨hRa, hRl⟩
      refine List.pairwise_cons.mpr ⟨fun b hb => ?_, ih ?_ hRl⟩
      · exact himp a (by simp) b (by simp [hb]) (hRa b hb)
      · intro x hx y hy hxy
        exact himp x (by simp [hx]) y (by simp [hy]) hxy

theorem nodup_map_iff_pairwise {α β : Type} (f : α → β) (l : List α) :
    (l.map f).Nodup ↔ l.Pairwise (fun a b => f a ≠ f b) :=
  List.pairwise_map

theorem mem_filterGewest {df : List PermitRecord} {r : PermitRecord} :
    r ∈ filterGewest df ↔ r ∈ df ∧ r.geografisch_niveau = 2 ∧ r.periode ∈ periodSet := by
  simp [filterGewest, List.mem_filter, and_assoc]

theorem mem_prepare {df : List PermitRecord} {r : PreparedRow} :
    r ∈ prepare df ↔ ∃ r0, r0 ∈ df ∧ r0.geografisch_niveau = 2 ∧
      r0.periode ∈ periodSet ∧ r = toPrepared r0 := by
  simp only [prepare, List.mem_map, mem_filterGewest]
  constructor
  · rintro ⟨r0, ⟨h1, h2, h3⟩, h4⟩
    exact ⟨r0, h1, h2, h3, h4.symm⟩
  · rintro ⟨r0, h1, h2, h3, h4⟩
    exact ⟨r0, ⟨h1, h2, h3⟩, h4.symm⟩

theorem periodSet_bounds {p : ℕ} (h : p ∈ periodSet) : 1 ≤ p ∧ p ≤ 12 := by
  simp [periodSet] at h
  rcases h with rfl | rfl | rfl | rfl | rfl | rfl | rfl | rfl | rfl | rfl | rfl | rfl <;> omega

theorem prepare_row_spec {df : List PermitRecord} {r : PreparedRow} (h : r ∈ prepare df) :
    1 ≤ r.periode ∧ r.periode ≤ 12 ∧ r.datum = r.jaar * 12 + (r.periode - 1) := by
  rcases mem_prepare.mp h with ⟨r0, _, _, hp, rfl⟩
  rcases periodSet_bounds hp with ⟨h1, h2⟩
  exact ⟨h1, h2, rfl⟩

theorem prepare_periodSet {df : List PermitRecord} {r : PreparedRow} (h : r ∈ prepare df) :
    r.periode ∈ periodSet := by
  rcases mem_prepare.mp h with ⟨r0, _, _, hp, rfl⟩
  exact hp

theorem mem_groupRows {l : List PreparedRow} {g : Option String} {r : PreparedRow} :
    r ∈ groupRows l g ↔ r ∈ l ∧ pandasEqOpt r.gemeente_naam_nl g = true := by
  simp [groupRows, List.mem_filter]

theorem groupRows_subset {l : List PreparedRow} {g : Option String} {r : PreparedRow}
    (h : r ∈ groupRows l g) : r ∈ l :=
  (mem_groupRows.mp h).1

theorem pandasEqOpt_none_left (g : Option String) : pandasEqOpt none g = false := by
  cases g <;> rfl

theorem groupRows_none (l : List PreparedRow) : groupRows l none = [] := by
  induction l with
  | nil => rfl
  | cons a l ih =>
      simp only [groupRows, List.filter] at ih ⊢
      cases ha : a.gemeente_naam_nl <;> simp [pandasEqOpt, ha, ih]

theorem gewestMapping_range (s : String) :
    gewestMapping s = none ∨ gewestMapping s = some "Vlaams Gewest" ∨
    gewestMapping s = some "Waals Gewest" ∨
    gewestMapping s = some "Brussels Hoofdstedelijk Gewest" := by
  unfold gewestMapping
  split_ifs <;> simp

theorem mem_chartTraces {df : List PermitRecord} {metric : PreparedRow → ℚ} {t : Trace}
    (h : t ∈ chartTraces df metric) :
    ∃ g, g ∈ gewesten df ∧ groupRows (prepare df) g ≠ [] ∧ t.gewest = g := by
  simp only [chartTraces, List.mem_flatten, List.mem_map] at h
  rcases h with ⟨l, ⟨g, hg, hl⟩, ht⟩
  refine ⟨g, hg, ?_⟩
  by_cases hemp : (groupRows (prepare df) g).isEmpty
  · rw [if_pos hemp] at hl
    rw [← hl] at ht
    simp at ht
  · rw [if_neg hemp] at hl
    rw [← hl] at ht
    have hne : groupRows (prepare df) g ≠ [] := by
      intro hx
      rw [hx] at hemp
      simp at hemp
    simp only [List.mem_cons, List.mem_singleton] at ht
    rcases ht with rfl | rfl | hx
    · exact ⟨hne, rfl⟩
    · exact ⟨hne, rfl⟩
    · simp at hx

theorem sortByDatum_perm (l : List PreparedRow) : List.Perm (sortByDatum l) l :=
  List.perm_insertionSort relDatum l

theorem sortByDatum_sorted (l : List PreparedRow) :
    (sortByDatum l).Pairwise relDatum :=
  List.sorted_insertionSort relDatum l

theorem datum_ne_of_key_ne {df : List PermitRecord} {a b : PreparedRow}
    (ha : a ∈ prepare df) (hb : b ∈ prepare df)
    (hne : (a.jaar, a.periode) ≠ (b.jaar, b.periode)) : a.datum ≠ b.datum := by
  rcases prepare_row_spec ha with ⟨ha1, ha2, ha3⟩
  rcases prepare_row_spec hb with ⟨hb1, hb2, hb3⟩
  intro hd
  apply hne
  rw [ha3, hb3] at hd
  have : a.jaar = b.jaar ∧ a.periode = b.periode := by omega
  rw [Prod.mk.injEq]
  exact this

theorem chartSorted_strict {df : List PermitRecord} {g : Option String}
    (h : ((groupRows (prepare df) g).map (fun r => (r.jaar, r.periode))).Nodup) :
    ((chartSorted df g).map PreparedRow.datum).Sorted (fun a b => a < b) ∧
    ((chartSorted df g).map PreparedRow.datum).Nodup := by
  have hkey : (groupRows (prepare df) g).Pairwise
      (fun a b => (a.jaar, a.periode) ≠ (b.jaar, b.periode)) :=
    (nodup_map_iff_pairwise _ _).mp h
  have hdatL : (groupRows (prepare df) g).Pairwise (fun a b => a.datum ≠ b.datum) := by
    refine pairwise_imp_mem (fun a haa b hbb hab => ?_) hkey
    exact datum_ne_of_key_ne (groupRows_subset haa) (groupRows_subset hbb) hab
  have hperm : List.Perm (chartSorted df g) (groupRows (prepare df) g) := sortByDatum_perm _
  have hdatS : ((chartSorted df g).map PreparedRow.datum).Nodup := by
    rw [nodup_map_iff_pairwise]
    rw [nodup_map_iff_pairwise] at *
    exact (List.Perm.pairwise_iff (fun hab => Ne.symm hab) hperm).mpr hdatL
  have hle : (chartSorted df g).Pairwise relDatum := sortByDatum_sorted _
  have hne : (chartSorted df g).Pairwise (fun a b => a.datum ≠ b.datum) :=
    (nodup_map_iff_pairwise _ _).mp hdatS
  constructor
  · have hcomb := pairwise_and_of hle hne
    have hlt : (chartSorted df g).Pairwise (fun a b => a.datum < b.datum) := by
      refine hcomb.imp ?_
      intro a b hab
      exact lt_of_le_of_ne hab.1 hab.2
    exact List.pairwise_map.mpr hlt
  · exact hdatS

theorem tableRowsFor_eq_chart (df : List PermitRecord) (metric : PreparedRow → ℚ)
    (g : Option String) :
    (tableRowsFor df metric g).map TableRow.datum = (chartSorted df g).map PreparedRow.datum ∧
    (tableRowsFor df metric g).map TableRow.maand = chartRawVals df metric g ∧
    (tableRowsFor df metric g).map TableRow.trend = (chartTrendVals df metric g).map round1 := by
  by_cases hemp : (groupRows (prepare df) g).isEmpty
  · have hnil : groupRows (prepare df) g = [] := List.isEmpty_iff.mp hemp
    simp [tableRowsFor, hemp, chartSorted, chartRawVals, chartTrendVals, hnil, sortByDatum,
      List.insertionSort, rollingMean]
  · have hraw : chartRawVals df metric g = (chartSorted df g).map metric := by
      simp [chartRawVals, toNumericFillna]
    refine ⟨?_, ?_, ?_⟩
    · simp only [tableRowsFor, if_neg hemp]
      rw [List.map_map]
      exact map_zip_fst PreparedRow.datum (chartSorted df g) _
        (by simp [chartSorted, rollingMean_length])
    · simp only [tableRowsFor, if_neg hemp]
      rw [List.map_map, hraw]
      exact map_zip_fst metric (chartSorted df g) _
        (by simp [chartSorted, rollingMean_length])
    · simp only [tableRowsFor, if_neg hemp]
      rw [List.map_map, chartTrendVals, hraw]
      exact map_zip_snd round1 (chartSorted df g) _
        (by simp [chartSorted, rollingMean_length])

theorem aandeel_case (app tot : Option ℤ)
    (happ : ∀ a : ℤ, app = some a → 0 ≤ a)
    (hle : ∀ a t : ℤ, app = some a → tot = some t → a ≤ t) :
    ((tot = none ∨ tot = some 0) → aandeelFlats app tot = FVal.fin 0) ∧
    (∀ t : ℤ, tot = some t → 0 < t →
      ∃ q : ℚ, aandeelFlats app tot = FVal.fin q ∧ 0 ≤ q ∧ q ≤ 100 ∧
        (∀ a : ℤ, app = some a → q = round1 ((a : ℚ) / (t : ℚ) * 100))) ∧
    aandeelFlats app tot ≠ FVal.nan ∧
    aandeelFlats app tot ≠ FVal.inf ∧
    aandeelFlats app tot ≠ FVal.negInf ∧
    (∀ q : ℚ, aandeelFlats app tot = FVal.fin q → 0 ≤ q) := by
  rcases app with _ | a
  · have hv : aandeelFlats none tot = FVal.fin 0 := by
      rcases tot with _ | t <;> rfl
    rw [hv]
    refine ⟨fun _ => rfl, fun t _ _ => ⟨0, rfl, le_refl 0, by norm_num, ?_⟩, ?_, ?_, ?_, ?_⟩
    · intro a ha; exact absurd ha (by simp)
    · simp
    · simp
    · simp
    · intro q hq
      have : (0 : ℚ) = q := by injection hq
      exact le_of_eq this
  · rcases tot with _ | t
    · have hv : aandeelFlats (some a) none = FVal.fin 0 := rfl
      rw [hv]
      refine ⟨fun _ => rfl, fun t ht _ => absurd ht (by simp), ?_, ?_, ?_, ?_⟩
      · simp
      · simp
      · simp
      · intro q hq
        have : (0 : ℚ) = q := by injection hq
        exact le_of_eq this
    · have ha0 : 0 ≤ a := happ a rfl
      have hat : a ≤ t := hle a t rfl rfl
      by_cases ht0 : t = 0
      · have ha : a = 0 := by omega
        subst ht0 ha
        have hv : aandeelFlats (some 0) (some 0) = FVal.fin 0 := by
          simp [aandeelFlats, optDiv, fmul100, fround1, fillna0]
        rw [hv]
        refine ⟨fun _ => rfl, fun t ht hpos => ?_, ?_, ?_, ?_, ?_⟩
        · have : t = 0 := by injection ht; omega
          omega
        · simp
        · simp
        · simp
        · intro q hq
          have : (0 : ℚ) = q := by injection hq
          exact le_of_eq this
      · have htpos : 0 < t := by omega
        have hv : aandeelFlats (some a) (some t) =
            FVal.fin (round1 ((a : ℚ) / (t : ℚ) * 100)) := by
          simp [aandeelFlats, optDiv, ht0, fmul100, fround1, fillna0]
        have htq : (0 : ℚ) < (t : ℚ) := by exact_mod_cast htpos
        have hq0 : (0 : ℚ) ≤ (a : ℚ) / (t : ℚ) * 100 := by
          have : (0 : ℚ) ≤ (a : ℚ) := by exact_mod_cast ha0
          positivity
        have hq100 : (a : ℚ) / (t : ℚ) * 100 ≤ 100 := by
          have h1 : (a : ℚ) / (t : ℚ) ≤ 1 := by
            rw [div_le_one htq]
            exact_mod_cast hat
          nlinarith
        have hr0 := round1_nonneg _ hq0
        have hr100 := round1_le_100 _ hq100
        rw [hv]
        refine ⟨?_, ?_, ?_, ?_, ?_, ?_⟩
        · rintro (h | h) <;> [exact absurd h (by simp); skip]
          have : t = 0 := by injection h
          omega
        · intro t2 ht2 _
          have het : t2 = t := by injection ht2; omega
          subst het
          exact ⟨round1 ((a : ℚ) / (t2 : ℚ) * 100), rfl, hr0, hr100,
            fun a2 ha2 => by
              have : a2 = a := by injection ha2; omega
              subst this; rfl⟩
        · simp
        · simp
        · simp
        · intro q hq
          have : round1 ((a : ℚ) / (t : ℚ) * 100) = q := by injection hq
          linarith [this ▸ hr0]

theorem str_data_append (a b : String) : (a ++ b).data = a.data ++ b.data := by
  cases a
  cases b
  rfl

theorem datumStr_day_suffix (jaar periode : ℕ) :
    ∃ pre : List Char, (datumStr jaar periode).data = pre ++ String.data "-01" := by
  refine ⟨(toString jaar ++ "-" ++ zfill 2 (toString periode)).data, ?_⟩
  unfold datumStr
  rw [str_data_append]

theorem empty_group_no_traces {df : List PermitRecord} {metric : PreparedRow → ℚ}
    {g : Option String} (h : groupRows (prepare df) g = []) :
    ∀ t ∈ chartTraces df metric, t.gewest ≠ g := by
  intro t ht hg
  rcases mem_chartTraces ht with ⟨g2, _, hne, hgt⟩
  rw [hg] at hgt
  exact hne (hgt ▸ h)

theorem none_no_traces {df : List PermitRecord} {metric : PreparedRow → ℚ} :
    ∀ t ∈ chartTraces df metric, t.gewest ≠ (none : Option String) := by
  intro t ht
  exact empty_group_no_traces (groupRows_none _) t ht

theorem prepare_label_range {df : List PermitRecord} {r : PreparedRow} (h : r ∈ prepare df) :
    r.gemeente_naam_nl = none ∨ r.gemeente_naam_nl = some "Vlaams Gewest" ∨
    r.gemeente_naam_nl = some "Waals Gewest" ∨
    r.gemeente_naam_nl = some "Brussels Hoofdstedelijk Gewest" := by
  rcases mem_prepare.mp h with ⟨r0, _, _, _, rfl⟩
  exact gewestMapping_range r0.gemeente_naam_nl

theorem none_label_no_group {l : List PreparedRow} {r : PreparedRow}
    (h : r.gemeente_naam_nl = none) (g : Option String) : r ∉ groupRows l g := by
  intro hmem
  have := (mem_groupRows.mp hmem).2
  rw [h, pandasEqOpt_none_left] at this
  simp at this

theorem monthNames_total {p : ℕ} (h : p ∈ periodSet) : (monthNames p).isSome = true := by
  have hall : periodSet.all (fun p => (monthNames p).isSome) = true := by decide
  exact List.all_eq_true.mp hall p h

/-- C1: for every group's value sequence, the trend value at position `i`
equals the arithmetic mean of the trailing `min(4, i+1)` raw values
(window size 4, `min_periods=1`); in particular the trend at the first
point of any group equals that point's raw value, and the input sequence
`[10, 20, 30, 40, 100]` yields trend values `[10, 15, 20, 25, 47.5]`. -/
theorem claim_C1 :
    (∀ (df : List PermitRecord) (metric : PreparedRow → ℚ) (g : Option String),
      (chartTrendVals df metric g).head? = (chartRawVals df metric g).head?) ∧
    (∀ (df : List PermitRecord) (metric : PreparedRow → ℚ) (g : Option String) (i : ℕ)
      (h : i < (chartTrendVals df metric g).length),
      (chartTrendVals df metric g).get ⟨i, h⟩ =
        (((chartRawVals df metric g).take (i + 1)).drop (i + 1 - 4)).sum
          / ((min 4 (i + 1) : ℕ) : ℚ)) ∧
    rollingMean 4 [10, 20, 30, 40, 100] = [10, 15, 20, 25, 47.5] := by
  refine ⟨?_, ?_, ?_⟩
  · intro df metric g
    exact rollingMean_head 4 (by norm_num) _
  · intro df metric g i h
    exact rollingMean_get 4 _ i h
  · norm_num [rollingMean, List.range_succ]

/-- Witness for C1: the position-0 trend value of the one-row sample
dataset is computed by the trailing-window formula. -/
theorem claim_C1_witness :
    (chartTrendVals sampleDf metricTot (some "Vlaams Gewest")).get ⟨0, by decide⟩ =
      (((chartRawVals sampleDf metricTot (some "Vlaams Gewest")).take 1).drop (1 - 4)).sum
        / ((min 4 1 : ℕ) : ℚ) :=
  claim_C1.2.1 sampleDf metricTot (some "Vlaams Gewest") 0 (by decide)

/-- Counterexample to C2 as stated: for a record with 1 apartment and 0
total new dwellings (denominator zero), the derived metric is `+inf`
(`1/0` in pandas), not the claimed 0 — `fillna(0)` replaces `NaN` but
not infinities, so an undefined value propagates downstream. -/
theorem claim_C2_counterexample :
    aandeelFlats (some 1) (some 0) = FVal.inf ∧ FVal.inf ≠ FVal.fin 0 := by
  refine ⟨by decide, ?_⟩
  intro h
  exact FVal.noConfusion h

/-- C2 (amended): for every record whose counts are nonnegative and whose
apartment count does not exceed its total new dwellings, the derived
share-of-apartments metric equals apartments / total × 100 rounded to
one decimal when the denominator is positive, is exactly 0 when the
denominator is zero or missing, lies in [0, 100] when the denominator is
positive, and is never negative, NaN, or infinite. -/
theorem claim_C2_amended (app tot : Option ℤ)
    (happ : ∀ a : ℤ, app = some a → 0 ≤ a)
    (hle : ∀ a t : ℤ, app = some a → tot = some t → a ≤ t) :
    ((tot = none ∨ tot = some 0) → aandeelFlats app tot = FVal.fin 0) ∧
    (∀ t : ℤ, tot = some t → 0 < t →
      ∃ q : ℚ, aandeelFlats app tot = FVal.fin q ∧ 0 ≤ q ∧ q ≤ 100 ∧
        (∀ a : ℤ, app = some a → q = round1 ((a : ℚ) / (t : ℚ) * 100))) ∧
    aandeelFlats app tot ≠ FVal.nan ∧
    aandeelFlats app tot ≠ FVal.inf ∧
    aandeelFlats app tot ≠ FVal.negInf ∧
    (∀ q : ℚ, aandeelFlats app tot = FVal.fin q → 0 ≤ q) :=
  aandeel_case app tot happ hle

/-- Witness for C2 (amended), at a record with 10 apartments out of 40
total new dwellings. -/
theorem claim_C2_witness :
    ((some (40 : ℤ) = none ∨ some (40 : ℤ) = some 0) →
      aandeelFlats (some 10) (some 40) = FVal.fin 0) ∧
    (∀ t : ℤ, some (40 : ℤ) = some t → 0 < t →
      ∃ q : ℚ, aandeelFlats (some 10) (some 40) = FVal.fin q ∧ 0 ≤ q ∧ q ≤ 100 ∧
        (∀ a : ℤ, some (10 : ℤ) = some a → q = round1 ((a : ℚ) / (t : ℚ) * 100))) ∧
    aandeelFlats (some 10) (some 40) ≠ FVal.nan ∧
    aandeelFlats (some 10) (some 40) ≠ FVal.inf ∧
    aandeelFlats (some 10) (some 40) ≠ FVal.negInf ∧
    (∀ q : ℚ, aandeelFlats (some 10) (some 40) = FVal.fin q → 0 ≤ q) :=
  claim_C2_amended (some 10) (some 40)
    (by intro a ha; injection ha with h; omega)
    (by intro a t ha ht; injection ha with h1; injection ht with h2; omega)

/-- C3: the canonical date is the first day of its period: the monthly
scheme maps (2023, 3) to "2023-03-01"; the quarterly scheme (modelled
from the spec, the quarterly script variant being absent from the
sources) maps (2023, 2) to "2023-04-01" via period×3−2; every monthly
date string ends in "-01"; and the quarterly date is the monthly date of
month period×3−2. -/
theorem claim_C3 :
    datumStr 2023 3 = "2023-03-01" ∧
    kwartaalDatum 2023 2 = "2023-04-01" ∧
    (∀ jaar periode : ℕ, ∃ pre : List Char,
      (datumStr jaar periode).data = pre ++ String.data "-01") ∧
    (∀ jaar kwartaal : ℕ, kwartaalDatum jaar kwartaal = datumStr jaar (3 * kwartaal - 2)) :=
  ⟨by decide, by decide, datumStr_day_suffix, fun _ _ => rfl⟩

/-- C4: a row of the input dataset appears in the filtered
series-building set if and only if its geographic level equals 2 (gewest)
and its period is in the supplied period set {1..12}; rows with period 0
and rows at other levels are always excluded. -/
theorem claim_C4 (df : List PermitRecord) (r : PermitRecord) (h : r ∈ df) :
    (r ∈ filterGewest df ↔ r.geografisch_niveau = 2 ∧ r.periode ∈ periodSet) ∧
    (r.periode = 0 → r ∉ filterGewest df) ∧
    (r.geografisch_niveau ≠ 2 → r ∉ filterGewest df) := by
  refine ⟨?_, ?_, ?_⟩
  · rw [mem_filterGewest]
    constructor
    · rintro ⟨_, h2, h3⟩; exact ⟨h2, h3⟩
    · rintro ⟨h2, h3⟩; exact ⟨h, h2, h3⟩
  · intro h0 hmem
    have hp := (mem_filterGewest.mp hmem).2.2
    rw [h0] at hp
    simp [periodSet] at hp
  · intro hne hmem
    exact hne (mem_filterGewest.mp hmem).2.1

/-- Witness for C4 at the one-row sample dataset. -/
theorem claim_C4_witness :
    (sampleRecord ∈ filterGewest sampleDf ↔
      sampleRecord.geografisch_niveau = 2 ∧ sampleRecord.periode ∈ periodSet) ∧
    (sampleRecord.periode = 0 → sampleRecord ∉ filterGewest sampleDf) ∧
    (sampleRecord.geografisch_niveau ≠ 2 → sampleRecord ∉ filterGewest sampleDf) :=
  claim_C4 sampleDf sampleRecord (List.mem_singleton_self _)

/-- Counterexample to C5 as stated: a dataset in which the same
gewest-level row occurs twice is a legal input, and the resulting group
sequence for "Vlaams Gewest" has a duplicated date, so its dates are
neither strictly increasing nor duplicate-free. -/
theorem claim_C5_counterexample :
    (some "Vlaams Gewest") ∈ gewesten cexDup ∧
    ¬ ((chartSorted cexDup (some "Vlaams Gewest")).map PreparedRow.datum).Sorted
        (fun a b => a < b) ∧
    ¬ ((chartSorted cexDup (some "Vlaams Gewest")).map PreparedRow.datum).Nodup := by
  refine ⟨by decide, by decide, by decide⟩

/-- C5 (amended): for any input dataset in which no two rows of a group
share the same (year, period), after filtering by geographic level and
period set and grouping by geographic label, every group's sorted
sequence of canonical dates is strictly increasing with no duplicates. -/
theorem claim_C5_amended (df : List PermitRecord) (g : Option String)
    (h : ((groupRows (prepare df) g).map (fun r => (r.jaar, r.periode))).Nodup) :
    ((chartSorted df g).map PreparedRow.datum).Sorted (fun a b => a < b) ∧
    ((chartSorted df g).map PreparedRow.datum).Nodup :=
  chartSorted_strict h

/-- Witness for C5 (amended) at the one-row sample dataset. -/
theorem claim_C5_witness :
    ((chartSorted sampleDf (some "Vlaams Gewest")).map PreparedRow.datum).Sorted
        (fun a b => a < b) ∧
    ((chartSorted sampleDf (some "Vlaams Gewest")).map PreparedRow.datum).Nodup :=
  claim_C5_amended sampleDf (some "Vlaams Gewest") (by decide)

/-- Counterexample to C6 as stated: two datasets with different numbers
of unmapped-geography rows produce identical run output (the
`load_and_prepare_data` summary line and all per-gewest data every later
console line is computed from), so the number of dropped rows is not
reported in the run output. -/
theorem claim_C6_counterexample :
    runOutputLoad cexA6 = runOutputLoad cexB6 ∧
    perGewestData cexA6 = perGewestData cexB6 ∧
    droppedCount cexA6 ≠ droppedCount cexB6 :=
  ⟨rfl, rfl, by decide⟩

/-- C6 (amended): every row whose geographic label has no entry in the
fixed lookup gets a missing label (never its upper-case source form) and
is excluded from every group's series and from every rendered chart
trace; however, the number of such rows is not reported in the run
output. -/
theorem claim_C6_amended (df : List PermitRecord) (r : PreparedRow) (h : r ∈ prepare df) :
    (r.gemeente_naam_nl = none ∨ r.gemeente_naam_nl = some "Vlaams Gewest" ∨
     r.gemeente_naam_nl = some "Waals Gewest" ∨
     r.gemeente_naam_nl = some "Brussels Hoofdstedelijk Gewest") ∧
    (r.gemeente_naam_nl = none → ∀ g : Option String, r ∉ groupRows (prepare df) g) ∧
    (∀ (metric : PreparedRow → ℚ) (t : Trace), t ∈ chartTraces df metric →
      t.gewest ≠ (none : Option String)) :=
  ⟨prepare_label_range h, fun hn g => none_label_no_group hn g,
   fun _ t ht => none_no_traces t ht⟩

/-- Witness for C6 (amended): the prepared row of an unmapped record is
in the canonical label range (here: the missing label). -/
theorem claim_C6_witness :
    (toPrepared (mkRec "FOO" 2 2023 1 none none none)).gemeente_naam_nl = none ∨
    (toPrepared (mkRec "FOO" 2 2023 1 none none none)).gemeente_naam_nl = some "Vlaams Gewest" ∨
    (toPrepared (mkRec "FOO" 2 2023 1 none none none)).gemeente_naam_nl = some "Waals Gewest" ∨
    (toPrepared (mkRec "FOO" 2 2023 1 none none none)).gemeente_naam_nl =
      some "Brussels Hoofdstedelijk Gewest" :=
  (claim_C6_amended cexB6 (toPrepared (mkRec "FOO" 2 2023 1 none none none))
    (List.mem_cons_of_mem _ (List.mem_cons_self _ _))).1

/-- C7: a metric/level/period combination matching zero rows yields an
empty sequence in every view (table rows, raw values, trend values) —
the builder is a total function, so no exception is possible — and the
chart rendering adds no trace for that group. -/
theorem claim_C7 (df : List PermitRecord) (metric : PreparedRow → ℚ) (g : Option String)
    (h : groupRows (prepare df) g = []) :
    tableRowsFor df metric g = [] ∧ chartRawVals df metric g = [] ∧
    chartTrendVals df metric g = [] ∧
    ∀ t ∈ chartTraces df metric, t.gewest ≠ g := by
  have hemp : (groupRows (prepare df) g).isEmpty = true := by rw [h]; rfl
  refine ⟨by simp [tableRowsFor, hemp], ?_, ?_, empty_group_no_traces h⟩
  · simp [chartRawVals, chartSorted, h, sortByDatum, List.insertionSort]
  · simp [chartTrendVals, chartRawVals, chartSorted, h, sortByDatum, List.insertionSort,
      rollingMean]

/-- Witness for C7: the sample dataset has no "Waals Gewest" rows and its
table sequence for that group is empty. -/
theorem claim_C7_witness :
    tableRowsFor sampleDf metricTot (some "Waals Gewest") = [] :=
  (claim_C7 sampleDf metricTot (some "Waals Gewest") (by decide)).1

/-- C8: for every metric and group, the dates, raw values and trend
values written to the CSV/table rows equal those rendered in the chart
traces, the trend up to the declared one-decimal rounding — both passes
are derived deterministically from the same sorted group sequence. -/
theorem claim_C8 (df : List PermitRecord) (metric : PreparedRow → ℚ) (g : Option String) :
    (tableRowsFor df metric g).map TableRow.datum = (chartSorted df g).map PreparedRow.datum ∧
    (tableRowsFor df metric g).map TableRow.maand = chartRawVals df metric g ∧
    (tableRowsFor df metric g).map TableRow.trend = (chartTrendVals df metric g).map round1 :=
  tableRowsFor_eq_chart df metric g

/-- Counterexample to C9 as stated: truncating the run's write sequence
at step 4 (an abort after the first analysis) leaves a nonempty proper
subset of the published files written, so writes are not staged and
published atomically on success. -/
theorem claim_C9_counterexample :
    ¬ (∀ n : ℕ, publishedWrites (runWritePaths.take n) = [] ∨
        publishedWrites (runWritePaths.take n) = publishedWrites runWritePaths) := by
  intro hcl
  rcases hcl 4 with h4 | h4 <;> revert h4 <;> decide

/-- C9 (amended): every file a run writes goes directly to its final
published `docs/` location as it is produced, so a run that fails
partway (here: after the first analysis's four writes) leaves a nonempty
proper subset of the published output overwritten — there is no staging
location and no atomic publish. -/
theorem claim_C9_amended :
    (∀ p ∈ runWritePaths, startsWithDocs p = true) ∧
    publishedWrites (runWritePaths.take 4) ≠ [] ∧
    publishedWrites (runWritePaths.take 4) ≠ publishedWrites runWritePaths :=
  ⟨by decide, by decide, by decide⟩

/-- Witness for C9 (amended): the final index page is written directly
into the published directory. -/
theorem claim_C9_witness : startsWithDocs "docs/index.html" = true :=
  claim_C9_amended.1 "docs/index.html" (by decide)

/-- C10: the hover-text month-name lookup is total on the prepared
per-region dataset: the prepare step filters `periode` into {1..12}, and
`monthNames` is defined on all of {1..12}, so the dict access
`month_names[row['periode']]` cannot fail for any reachable row. -/
theorem claim_C10 (df : List PermitRecord) (r : PreparedRow) (h : r ∈ prepare df) :
    (monthNames r.periode).isSome = true :=
  monthNames_total (prepare_periodSet h)

/-- Witness for C10 at the one-row sample dataset. -/
theorem claim_C10_witness :
    (monthNames (toPrepared sampleRecord).periode).isSome = true :=
  claim_C10 sampleDf (toPrepared sampleRecord) (List.mem_singleton_self _)
